import Mathlib

/-!
Verification of the game-session backend (socketController.js) against its
natural-language specification.  The JavaScript source is embedded shallowly:
the feedback algorithm becomes pure list functions, the socket handlers become
functions from an explicit server state to a new state plus a list of emitted
notifications, and the JS `Map` becomes an association list with insertion-order
preserving `set`.
-/

namespace Backend

/-! ### Feedback Engine (calculateFeedback, lines 18-44)

The JS function copies both arrays, then runs two `forEach` passes.
Pass 1 marks exact positional matches, overwriting both slots with `-1`.
Pass 2 walks the remaining secret slots left to right, skipping `-1`, and
consumes the first occurrence of the value in the guess copy via `indexOf`,
overwriting the consumed guess slot with `-1`.
Out-of-range guess indices read as `undefined` in JS and never match, which the
embedding reflects by leaving unmatched tails untouched. -/

def pass1 : List Int → List Int → Nat × List Int × List Int
  | [], g => (0, [], g)
  | s :: ss, [] => (0, s :: ss, [])
  | s :: ss, g :: gs =>
    let r := pass1 ss gs
    if s = g then (r.1 + 1, (-1) :: r.2.1, (-1) :: r.2.2)
    else (r.1, s :: r.2.1, g :: r.2.2)

/-- One `indexOf`-and-overwrite step of pass 2: replace the first occurrence of
`v` by `-1`, or return `none` when `indexOf` yields `-1`. -/
def consumeFirst (v : Int) : List Int → Option (List Int)
  | [] => none
  | g :: gs =>
    if g = v then some ((-1) :: gs)
    else Option.map (fun l => g :: l) (consumeFirst v gs)

def pass2 : List Int → List Int → Nat × List Int
  | [], g => (0, g)
  | s :: ss, g =>
    if s = -1 then pass2 ss g
    else
      match consumeFirst s g with
      | some g2 =>
        let r := pass2 ss g2
        (r.1 + 1, r.2)
      | none => pass2 ss g

def calculateFeedback (secret guess : List Int) : List String :=
  let p1 := pass1 secret guess
  let p2 := pass2 p1.2.1 p1.2.2
  List.replicate p1.1 "black" ++ List.replicate p2.1 "white"

/-! ### Specification scoring policy (section 4.1 of the spec)

Modelled from the spec for the refinement comparison of claim C8: consumed
slots are tracked as `none`, so consumption never collides with any code
value (in particular not with `-1`).  Pass 2 awards a color peg for each
remaining secret value whose value occurs among the remaining guess slots,
consuming the lowest-index such slot. -/

def specConsume (v : Int) : List (Option Int) → Option (List (Option Int))
  | [] => none
  | some g :: gs =>
    if g = v then some (none :: gs)
    else Option.map (fun l => some g :: l) (specConsume v gs)
  | none :: gs => Option.map (fun l => none :: l) (specConsume v gs)

def specPass1 : List Int → List Int → Nat × List (Option Int) × List (Option Int)
  | [], _ => (0, [], [])
  | _ :: _, [] => (0, [], [])
  | s :: ss, g :: gs =>
    let r := specPass1 ss gs
    if s = g then (r.1 + 1, none :: r.2.1, none :: r.2.2)
    else (r.1, some s :: r.2.1, some g :: r.2.2)

def specPass2 : List (Option Int) → List (Option Int) → Nat
  | [], _ => 0
  | none :: ss, g => specPass2 ss g
  | some s :: ss, g =>
    match specConsume s g with
    | some g2 => specPass2 ss g2 + 1
    | none => specPass2 ss g

/-- The (exact, color) counts prescribed by the spec's two-pass policy. -/
def specScore (secret guess : List Int) : Nat × Nat :=
  let r := specPass1 secret guess
  (r.1, specPass2 r.2.1 r.2.2)

/-! ### Data model (state kept by socketController) -/

structure User where
  username : String
  socketId : String
  status : String
deriving DecidableEq

structure GuessData where
  guess : List Int
  feedback : List String
deriving DecidableEq

structure Game where
  player1 : String
  player2 : String
  secret1 : Option (List Int)
  secret2 : Option (List Int)
  guesses1 : List GuessData
  guesses2 : List GuessData
  bothCodesSet : Bool
deriving DecidableEq

/-- JS `Map.get`. -/
def mapGet {α : Type} (k : String) : List (String × α) → Option α
  | [] => none
  | (k2, v) :: rest => if k2 = k then some v else mapGet k rest

/-- JS `Map.set`: replace in place if the key exists, else append
(insertion order is preserved, as for a JS `Map`). -/
def mapSet {α : Type} (k : String) (v : α) : List (String × α) → List (String × α)
  | [] => [(k, v)]
  | (k2, v2) :: rest => if k2 = k then (k, v) :: rest else (k2, v2) :: mapSet k v rest

structure ServerState where
  onlineUsers : List (String × User)
  activeGames : List (String × Game)
deriving DecidableEq

/-- Outbound notifications.  Targeted emissions carry the destination socket id
first; `usersListUpdate` is a broadcast. -/
inductive Notif where
  | usersListUpdate (users : List User)
  | challengeReceived (dest : String) (username : String) (socketId : String)
  | challengeAccepted (dest : String) (opponent : String) (opponentSocketId : String)
      (gameId : String) (role : String)
  | bothCodesSetNotice (dest : String) (gameId : String)
  | opponentCodeSet (dest : String) (gameId : String)
  | guessError (dest : String) (gameId : String) (error : String)
  | guessFeedback (dest : String) (gameId : String) (guessData : GuessData)
      (isWin : Bool) (gameOver : Bool)
  | opponentGuess (dest : String) (gameId : String) (guessData : GuessData)
  | opponentGameStatus (dest : String) (gameId : String)
      (opponentWon : Bool) (opponentLost : Bool)
  | opponentDisconnected (dest : String) (gameId : String)
deriving DecidableEq

def secretsNotReadyMsg : String :=
  "I codici segreti non sono ancora stati entrambi impostati"

def attemptsExhaustedMsg : String :=
  "Hai già esaurito tutti i tentativi"

/-! ### Handlers -/

/-- Handler for `send_challenge` (lines 76-86). -/
def sendChallenge (st : ServerState) (sid targetSocketId : String) :
    ServerState × List Notif :=
  match mapGet sid st.onlineUsers with
  | none => (st, [])
  | some challenger =>
    if (mapGet targetSocketId st.onlineUsers).isSome then
      (st, [Notif.challengeReceived targetSocketId challenger.username sid])
    else (st, [])

/-- Game id generation (line 95): challenger id, accepter id and the current
millisecond timestamp joined by underscores. -/
def mkGameId (challengerId sid : String) (now : Nat) : String :=
  challengerId ++ "_" ++ sid ++ "_" ++ Nat.repr now

/-- Handler for `accept_challenge` (lines 89-124).  `now` stands for the
`Date.now()` reading. -/
def acceptChallenge (st : ServerState) (sid challengerId : String) (now : Nat) :
    ServerState × List Notif :=
  match mapGet sid st.onlineUsers, mapGet challengerId st.onlineUsers with
  | some accepter, some challenger =>
    let gameId := mkGameId challengerId sid now
    let game : Game :=
      { player1 := challengerId, player2 := sid,
        secret1 := none, secret2 := none,
        guesses1 := [], guesses2 := [], bothCodesSet := false }
    ({ st with activeGames := mapSet gameId game st.activeGames },
     [Notif.challengeAccepted challengerId accepter.username sid gameId "player1",
      Notif.challengeAccepted sid challenger.username challengerId gameId "player2"])
  | _, _ => (st, [])

/-- Handler for `set_secret_code` (lines 127-173). -/
def setSecretCode (st : ServerState) (sid gameId : String) (secretCode : List Int) :
    ServerState × List Notif :=
  match mapGet gameId st.activeGames with
  | none => (st, [])
  | some game =>
    let isPlayer1 : Bool := game.player1 == sid
    let isPlayer2 : Bool := game.player2 == sid
    if !isPlayer1 && !isPlayer2 then (st, [])
    else
      let game1 :=
        if isPlayer1 then { game with secret1 := some secretCode }
        else { game with secret2 := some secretCode }
      if game1.secret1.isSome && game1.secret2.isSome then
        let game2 := { game1 with bothCodesSet := true }
        ({ st with activeGames := mapSet gameId game2 st.activeGames },
         [Notif.bothCodesSetNotice game.player1 gameId,
          Notif.bothCodesSetNotice game.player2 gameId])
      else
        let opponentSocketId := if isPlayer1 then game.player2 else game.player1
        ({ st with activeGames := mapSet gameId game1 st.activeGames },
         [Notif.opponentCodeSet opponentSocketId gameId])

/-- The win test (line 225): `guess.every((val, idx) => val === targetSecret[idx])`.
Indices beyond the secret read `undefined` and never equal a number. -/
def winCheck : List Int → List Int → Bool
  | [], _ => true
  | _ :: _, [] => false
  | v :: vs, t :: ts => v == t && winCheck vs ts

/-- Handler for `submit_guess` (lines 176-257). -/
def submitGuess (st : ServerState) (sid gameId : String) (guess : List Int) :
    ServerState × List Notif :=
  match mapGet gameId st.activeGames with
  | none => (st, [])
  | some game =>
    if !game.bothCodesSet then
      (st, [Notif.guessError sid gameId secretsNotReadyMsg])
    else
      let isPlayer1 : Bool := game.player1 == sid
      let isPlayer2 : Bool := game.player2 == sid
      if !isPlayer1 && !isPlayer2 then (st, [])
      else
        let targetSecret := (if isPlayer1 then game.secret2 else game.secret1).getD []
        let guessesArray := if isPlayer1 then game.guesses1 else game.guesses2
        if guessesArray.length ≥ 10 then
          (st, [Notif.guessError sid gameId attemptsExhaustedMsg])
        else
          let feedback := calculateFeedback targetSecret guess
          let guessData : GuessData := { guess := guess, feedback := feedback }
          let newGuesses := guessesArray ++ [guessData]
          let game2 :=
            if isPlayer1 then { game with guesses1 := newGuesses }
            else { game with guesses2 := newGuesses }
          let isWin := winCheck guess targetSecret
          let gameOver := decide (newGuesses.length ≥ 10) || isWin
          let opponentSocketId := if isPlayer1 then game.player2 else game.player1
          let base :=
            [Notif.guessFeedback sid gameId guessData isWin gameOver,
             Notif.opponentGuess opponentSocketId gameId guessData]
          let notifs :=
            if gameOver then
              base ++ [Notif.opponentGameStatus opponentSocketId gameId isWin
                        (!isWin && decide (newGuesses.length ≥ 10))]
            else base
          ({ st with activeGames := mapSet gameId game2 st.activeGames }, notifs)

/-! ### Association-list lemmas -/

theorem mapGet_mapSet_self {α : Type} (k : String) (v : α) :
    ∀ m : List (String × α), mapGet k (mapSet k v m) = some v
  | [] => by simp [mapGet, mapSet]
  | (k2, v2) :: rest => by
    by_cases h : k2 = k
    · simp [mapGet, mapSet, h]
    · simp [mapGet, mapSet, h, mapGet_mapSet_self k v rest]

theorem mapGet_mapSet_ne {α : Type} {k k' : String} (v : α) (h : k' ≠ k) :
    ∀ m : List (String × α), mapGet k' (mapSet k v m) = mapGet k' m
  | [] => by
    have h' : ¬(k = k') := fun hh => h hh.symm
    simp [mapGet, mapSet, h']
  | (k2, v2) :: rest => by
    have h' : ¬(k = k') := fun hh => h hh.symm
    by_cases h2 : k2 = k
    · subst h2
      simp [mapGet, mapSet, h']
    · simp [mapGet, mapSet, h2, mapGet_mapSet_ne v h rest]

/-! ### Feedback-engine lemmas -/

theorem pass1_le (s : List Int) :
    ∀ g : List Int,
      (pass1 s g).1 + (pass1 s g).2.2.countP (fun x => x != -1) ≤ g.length := by
  induction s with
  | nil =>
    intro g
    simpa [pass1] using List.countP_le_length _
  | cons a ss ih =>
    intro g
    cases g with
    | nil => simp [pass1]
    | cons b gs =>
      have ihg := ih gs
      by_cases h : a = b
      · subst h
        simp only [pass1, if_pos rfl, List.length_cons]
        simp [List.countP_cons]
        omega
      · simp only [pass1, if_neg h, List.length_cons]
        simp only [List.countP_cons]
        have hif : (if ((b != (-1 : Int)) = true) then 1 else 0) ≤ 1 := by
          split <;> omega
        omega

theorem consumeFirst_countP {v : Int} (hv : v ≠ -1) :
    ∀ {g g2 : List Int}, consumeFirst v g = some g2 →
      g2.countP (fun x => x != -1) + 1 = g.countP (fun x => x != -1) := by
  intro g
  induction g with
  | nil => intro g2 h; simp [consumeFirst] at h
  | cons b gs ih =>
    intro g2 h
    by_cases hb : b = v
    · subst hb
      simp only [consumeFirst, if_pos trivial, eq_self_iff_true, if_true,
        Option.some.injEq] at h
      subst h
      have hbne : ((b != (-1 : Int)) = true) := by simpa using hv
      simp [List.countP_cons, hbne]
    · simp only [consumeFirst, if_neg hb, Option.map_eq_some'] at h
      obtain ⟨l, hl, rfl⟩ := h
      simp only [List.countP_cons]
      have := ih hl
      omega

theorem pass2_le : ∀ sc gc : List Int,
    (pass2 sc gc).1 ≤ gc.countP (fun x => x != -1) := by
  intro sc
  induction sc with
  | nil => intro gc; simp [pass2]
  | cons s ss ih =>
    intro gc
    by_cases hs : s = -1
    · simpa [pass2, hs] using ih gc
    · rcases hcf : consumeFirst s gc with _ | g2
      · simpa [pass2, hs, hcf] using ih gc
      · have hcount := consumeFirst_countP hs hcf
        have := ih g2
        simp only [pass2, if_neg hs, hcf]
        omega

theorem pass1_self : ∀ c : List Int,
    pass1 c c = (c.length, List.replicate c.length (-1), List.replicate c.length (-1))
  | [] => by simp [pass1]
  | x :: xs => by
    simp [pass1, pass1_self xs, List.replicate_succ]

theorem pass2_replicate : ∀ (n : Nat) (g : List Int),
    pass2 (List.replicate n (-1)) g = (0, g)
  | 0, g => by simp [pass2]
  | n + 1, g => by
    simp [pass2, List.replicate_succ, pass2_replicate n g]

/-- Scoring a code against itself yields only exact pegs. -/
theorem calculateFeedback_self (c : List Int) :
    calculateFeedback c c = List.replicate c.length "black" := by
  simp [calculateFeedback, pass1_self, pass2_replicate]

theorem winCheck_append (xs rest : List Int) : winCheck xs (xs ++ rest) = true := by
  induction xs with
  | nil => simp [winCheck]
  | cons a l ih => simp [winCheck, ih]

/-! ### Claim theorems: Feedback Engine -/

/-- C1 (counterexample): on the spec's worked example `secret=[1,1,2,3]`,
`guess=[1,2,2,2]`, the code does NOT produce 1 exact and 1 color peg: positions
0 and 2 are both exact matches, and no color peg remains. -/
theorem c1_counterexample :
    ¬((calculateFeedback [1, 1, 2, 3] [1, 2, 2, 2]).count "black" = 1 ∧
      (calculateFeedback [1, 1, 2, 3] [1, 2, 2, 2]).count "white" = 1) := by
  decide

/-- C1 (amended): on `secret=[1,1,2,3]`, `guess=[1,2,2,2]` the Feedback Engine
yields exactly 2 exact pegs (positions 0 and 2) and 0 color pegs. -/
theorem c1_amended :
    (calculateFeedback [1, 1, 2, 3] [1, 2, 2, 2]).count "black" = 2 ∧
    (calculateFeedback [1, 1, 2, 3] [1, 2, 2, 2]).count "white" = 0 := by
  decide

/-- C2: for equal-length codes, the exact-peg count is at most L, the combined
peg count is at most L, and the returned peg list never has more than L
elements. -/
theorem c2_feedback_bounds (secret guess : List Int)
    (h : secret.length = guess.length) :
    (calculateFeedback secret guess).count "black" ≤ secret.length ∧
    (calculateFeedback secret guess).count "black" +
      (calculateFeedback secret guess).count "white" ≤ secret.length ∧
    (calculateFeedback secret guess).length ≤ secret.length := by
  have h1 := pass1_le secret guess
  have h2 := pass2_le (pass1 secret guess).2.1 (pass1 secret guess).2.2
  have hbw : (pass1 secret guess).1 +
      (pass2 (pass1 secret guess).2.1 (pass1 secret guess).2.2).1 ≤ secret.length := by
    omega
  refine ⟨?_, ?_, ?_⟩ <;>
    simp [calculateFeedback, List.count_append, List.count_replicate_self,
      List.count_replicate] <;>
    omega

theorem c2_feedback_bounds_witness :
    (calculateFeedback [1, 2, 3, 4] [4, 3, 2, 1]).count "black" ≤ 4 ∧
    (calculateFeedback [1, 2, 3, 4] [4, 3, 2, 1]).count "black" +
      (calculateFeedback [1, 2, 3, 4] [4, 3, 2, 1]).count "white" ≤ 4 ∧
    (calculateFeedback [1, 2, 3, 4] [4, 3, 2, 1]).length ≤ 4 :=
  c2_feedback_bounds [1, 2, 3, 4] [4, 3, 2, 1] rfl

/-- C8: the code uses `-1` as its consumed marker, so a secret element equal to
`-1` is skipped by the color pass: on `secret=[-1,2]`, `guess=[2,-1]` the code
awards 0 exact and only 1 color peg, while the spec's two-pass first-occurrence
policy (tracking consumption separately from values) awards 2 color pegs. -/
theorem c8_marker_collision :
    (calculateFeedback [-1, 2] [2, -1]).count "black" = 0 ∧
    (calculateFeedback [-1, 2] [2, -1]).count "white" = 1 ∧
    specScore [-1, 2] [2, -1] = (0, 2) ∧
    (calculateFeedback [-1, 2] [2, -1]).count "white" ≠ (specScore [-1, 2] [2, -1]).2 := by
  decide

/-! ### Concrete states used by counterexamples and witnesses -/

def userA : User := { username := "A", socketId := "a", status := "online" }

def userB : User := { username := "B", socketId := "b", status := "online" }

def lobbyState : ServerState :=
  { onlineUsers := [("a", userA), ("b", userB)], activeGames := [] }

def targetOnlyState : ServerState :=
  { onlineUsers := [("b", userB)], activeGames := [] }

/-! ### Claim theorems: Challenge Broker -/

/-- C7 (counterexample): send_challenge also fails silently when the SENDER is
not registered, even though the target is present, contradicting the claimed
"if and only if the target connection is not currently present". -/
theorem c7_counterexample :
    sendChallenge targetOnlyState "x" "b" = (targetOnlyState, []) ∧
    (mapGet "b" targetOnlyState.onlineUsers).isSome = true := by
  decide

/-- C7 (amended): send_challenge never mutates state; it emits nothing iff the
sender is unregistered or the target is absent; otherwise it forwards exactly
one challenge_received to the target carrying the challenger's username and
connection id. -/
theorem c7_amended (st : ServerState) (sid tid : String) :
    (sendChallenge st sid tid).1 = st ∧
    ((sendChallenge st sid tid).2 = [] ↔
      mapGet sid st.onlineUsers = none ∨ mapGet tid st.onlineUsers = none) ∧
    (∀ ch, mapGet sid st.onlineUsers = some ch →
      (mapGet tid st.onlineUsers).isSome = true →
      (sendChallenge st sid tid).2 = [Notif.challengeReceived tid ch.username sid]) := by
  rcases hs : mapGet sid st.onlineUsers with _ | ch
  · simp [sendChallenge, hs]
  · rcases ht : mapGet tid st.onlineUsers with _ | tu
    · simp [sendChallenge, hs, ht]
    · simp [sendChallenge, hs, ht]

theorem c7_amended_witness :
    (sendChallenge lobbyState "a" "b").2 = [Notif.challengeReceived "b" "A" "a"] :=
  (c7_amended lobbyState "a" "b").2.2 userA (by decide) (by decide)

/-! ### Game-id generation: decimal rendering is injective and underscore-free -/

def charVal (c : Char) : Nat := c.toNat - 48

def digitsVal (l : List Char) : Nat := l.foldl (fun a c => 10 * a + charVal c) 0

theorem charVal_digitChar {d : Nat} (hd : d < 10) :
    charVal (Nat.digitChar d) = d := by
  interval_cases d <;> decide

theorem toDigitsCore_shift (n : Nat) : ∀ (f : Nat) (acc : List Char), n < f →
    Nat.toDigitsCore 10 f n acc = Nat.toDigitsCore 10 (n + 1) n [] ++ acc := by
  induction n using Nat.strongRecOn with
  | ind n ih =>
    intro f acc hf
    match f, hf with
    | f + 1, hf =>
      by_cases h0 : n / 10 = 0
      · simp [Nat.toDigitsCore, h0]
      · have hlt : n / 10 < n := Nat.div_lt_self (by omega) (by norm_num)
        have hstep : ∀ ds : List Char,
            Nat.toDigitsCore 10 (n + 1) n ds =
              Nat.toDigitsCore 10 n (n / 10) (Nat.digitChar (n % 10) :: ds) := by
          intro ds
          simp [Nat.toDigitsCore, h0]
        have hL : Nat.toDigitsCore 10 (f + 1) n acc =
            Nat.toDigitsCore 10 f (n / 10) (Nat.digitChar (n % 10) :: acc) := by
          simp [Nat.toDigitsCore, h0]
        rw [hL, ih (n / 10) hlt f _ (by omega), hstep,
          ih (n / 10) hlt n _ (by omega)]
        simp

theorem digitsVal_toDigits (n : Nat) : digitsVal (Nat.toDigits 10 n) = n := by
  induction n using Nat.strongRecOn with
  | ind n ih =>
    by_cases h0 : n / 10 = 0
    · have hn : n < 10 := by omega
      have : Nat.toDigits 10 n = [Nat.digitChar (n % 10)] := by
        simp [Nat.toDigits, Nat.toDigitsCore, h0]
      rw [this]
      simp only [digitsVal, List.foldl]
      rw [charVal_digitChar (Nat.mod_lt _ (by norm_num))]
      omega
    · have hlt : n / 10 < n := Nat.div_lt_self (by omega) (by norm_num)
      have hsplit : Nat.toDigits 10 n =
          Nat.toDigits 10 (n / 10) ++ [Nat.digitChar (n % 10)] := by
        have hun : Nat.toDigitsCore 10 (n + 1) n [] =
            Nat.toDigitsCore 10 n (n / 10) [Nat.digitChar (n % 10)] := by
          simp [Nat.toDigitsCore, h0]
        show Nat.toDigitsCore 10 (n + 1) n [] = _
        rw [hun, toDigitsCore_shift (n / 10) n _ (by omega)]
        rfl
      rw [hsplit]
      simp only [digitsVal, List.foldl_append, List.foldl]
      have hrec := ih (n / 10) hlt
      simp only [digitsVal] at hrec
      rw [hrec, charVal_digitChar (Nat.mod_lt _ (by norm_num))]
      omega

theorem natRepr_data_inj {m n : Nat} (h : (Nat.repr m).data = (Nat.repr n).data) :
    m = n := by
  have hm : (Nat.repr m).data = Nat.toDigits 10 m := rfl
  have hn : (Nat.repr n).data = Nat.toDigits 10 n := rfl
  have hd : Nat.toDigits 10 m = Nat.toDigits 10 n := by rw [← hm, ← hn, h]
  have := congrArg digitsVal hd
  rwa [digitsVal_toDigits, digitsVal_toDigits] at this

theorem digitChar_ne_underscore (d : Nat) : Nat.digitChar d ≠ '_' := by
  by_cases h : d < 16
  · interval_cases d <;> decide
  · have h0 : ¬ d = 0 := by omega
    have h1 : ¬ d = 1 := by omega
    have h2 : ¬ d = 2 := by omega
    have h3 : ¬ d = 3 := by omega
    have h4 : ¬ d = 4 := by omega
    have h5 : ¬ d = 5 := by omega
    have h6 : ¬ d = 6 := by omega
    have h7 : ¬ d = 7 := by omega
    have h8 : ¬ d = 8 := by omega
    have h9 : ¬ d = 9 := by omega
    have ha : ¬ d = 10 := by omega
    have hb : ¬ d = 11 := by omega
    have hc : ¬ d = 12 := by omega
    have hd2 : ¬ d = 13 := by omega
    have he : ¬ d = 14 := by omega
    have hf : ¬ d = 15 := by omega
    simp [Nat.digitChar, h0, h1, h2, h3, h4, h5, h6, h7, h8, h9, ha, hb, hc,
      hd2, he, hf]

theorem toDigitsCore_no_underscore :
    ∀ (f n : Nat) (acc : List Char), (∀ c ∈ acc, c ≠ '_') →
      ∀ c ∈ Nat.toDigitsCore 10 f n acc, c ≠ '_' := by
  intro f
  induction f with
  | zero => intro n acc hacc c hc; exact hacc c hc
  | succ f ih =>
    intro n acc hacc c hc
    simp only [Nat.toDigitsCore] at hc
    by_cases h0 : n / 10 = 0
    · simp only [h0, if_pos trivial, eq_self_iff_true, if_true] at hc
      rcases List.mem_cons.mp hc with rfl | hmem
      · exact digitChar_ne_underscore _
      · exact hacc c hmem
    · simp only [if_neg h0] at hc
      refine ih (n / 10) (Nat.digitChar (n % 10) :: acc) ?_ c hc
      intro c2 hc2
      rcases List.mem_cons.mp hc2 with rfl | hmem
      · exact digitChar_ne_underscore _
      · exact hacc c2 hmem

theorem repr_no_underscore (n : Nat) : ∀ c ∈ (Nat.repr n).data, c ≠ '_' := by
  intro c hc
  exact toDigitsCore_no_underscore (n + 1) n [] (by simp) c hc

theorem takeWhile_append_block (p : Char → Bool) :
    ∀ (l : List Char) (u : Char) (r : List Char),
      (∀ x ∈ l, p x = true) → p u = false →
      (l ++ u :: r).takeWhile p = l := by
  intro l
  induction l with
  | nil =>
    intro u r _ hu
    simp [List.takeWhile_cons, hu]
  | cons a as ih =>
    intro u r hl hu
    have ha : p a = true := hl a (by simp)
    simp [List.takeWhile_cons, ha, ih u r (fun x hx => hl x (by simp [hx])) hu]

theorem last_comp_eq {xs ys s1 s2 : List Char}
    (h1 : ∀ c ∈ s1, c ≠ '_') (h2 : ∀ c ∈ s2, c ≠ '_')
    (heq : xs ++ '_' :: s1 = ys ++ '_' :: s2) : s1 = s2 := by
  have hrev := congrArg List.reverse heq
  have e1 : (xs ++ '_' :: s1).reverse = s1.reverse ++ '_' :: xs.reverse := by
    simp
  have e2 : (ys ++ '_' :: s2).reverse = s2.reverse ++ '_' :: ys.reverse := by
    simp
  rw [e1, e2] at hrev
  have t1 := takeWhile_append_block (fun c => c != '_') s1.reverse '_' xs.reverse
    (fun x hx => by simpa using h1 x (List.mem_reverse.mp hx)) (by decide)
  have t2 := takeWhile_append_block (fun c => c != '_') s2.reverse '_' ys.reverse
    (fun x hx => by simpa using h2 x (List.mem_reverse.mp hx)) (by decide)
  have : s1.reverse = s2.reverse := by rw [← t1, ← t2, hrev]
  simpa using congrArg List.reverse this

theorem underscore_data : ("_" : String).data = ['_'] := rfl

theorem mkGameId_data (c a : String) (t : Nat) :
    (mkGameId c a t).data = (c.data ++ '_' :: a.data) ++ '_' :: (Nat.repr t).data := by
  simp [mkGameId, underscore_data]

/-! ### Claim theorems: session-id uniqueness -/

/-- C6 (counterexample): two distinct accept_challenge events by the same pair
within the same millisecond both create a session and announce the same game
id, so the generated ids do NOT differ for all distinct session-creating
events. -/
theorem c6_counterexample :
    (acceptChallenge lobbyState "b" "a" 7).2 ≠ [] ∧
    (acceptChallenge (acceptChallenge lobbyState "b" "a" 7).1 "b" "a" 7).2 ≠ [] ∧
    (acceptChallenge (acceptChallenge lobbyState "b" "a" 7).1 "b" "a" 7).2 =
      (acceptChallenge lobbyState "b" "a" 7).2 := by
  decide

/-- C6 (amended): game ids generated by accept_challenge differ whenever the
creation timestamps differ (for any participants); uniqueness can only fail
for sessions created in the same `Date.now()` millisecond, as in the
counterexample of two rapid rematches by the same pair. -/
theorem c6_amended (c1 a1 c2 a2 : String) (t1 t2 : Nat) (h : t1 ≠ t2) :
    mkGameId c1 a1 t1 ≠ mkGameId c2 a2 t2 := by
  intro heq
  have hd := congrArg String.data heq
  rw [mkGameId_data, mkGameId_data] at hd
  exact h (natRepr_data_inj
    (last_comp_eq (repr_no_underscore t1) (repr_no_underscore t2) hd))

theorem c6_amended_witness : mkGameId "a" "b" 1 ≠ mkGameId "a" "b" 2 :=
  c6_amended "a" "b" "a" "b" 1 2 (by decide)

/-! ### Further concrete states for witnesses -/

def gdStub : GuessData := { guess := [0, 0, 0, 0], feedback := [] }

def gameFull : Game :=
  { player1 := "a", player2 := "b", secret1 := some [1, 2, 3, 4],
    secret2 := some [4, 3, 2, 1], guesses1 := List.replicate 10 gdStub,
    guesses2 := [], bothCodesSet := true }

def fullState : ServerState :=
  { onlineUsers := [], activeGames := [("g", gameFull)] }

def gameLive : Game :=
  { player1 := "a", player2 := "b", secret1 := some [1, 2, 3, 4],
    secret2 := some [4, 3, 2, 1], guesses1 := [], guesses2 := [],
    bothCodesSet := true }

def liveState : ServerState :=
  { onlineUsers := [], activeGames := [("g", gameLive)] }

def gameStarted : Game :=
  { player1 := "a", player2 := "b", secret1 := some [1, 2, 3, 4],
    secret2 := some [4, 3, 2, 1], guesses1 := [gdStub], guesses2 := [],
    bothCodesSet := true }

def startedState : ServerState :=
  { onlineUsers := [], activeGames := [("g", gameStarted)] }

def emptyState : ServerState := { onlineUsers := [], activeGames := [] }

/-! ### Claim theorems: Game Session state machine -/

/-- C3: in a session with both secrets committed, a participant's guess is
rejected with the AttemptsExhausted error (state unchanged, nothing appended)
exactly when that player's guess list already has 10 entries; with fewer than
10 entries the guess is accepted, appending exactly one record, and the length
stays at most 10. -/
theorem c3_attempt_budget (st : ServerState) (sid gid : String) (guess : List Int)
    (game : Game)
    (hfind : mapGet gid st.activeGames = some game)
    (hboth : game.bothCodesSet = true)
    (hp : game.player1 = sid ∨ (game.player1 ≠ sid ∧ game.player2 = sid))
    (hlen : (if game.player1 = sid then game.guesses1 else game.guesses2).length ≤ 10) :
    (submitGuess st sid gid guess =
        (st, [Notif.guessError sid gid attemptsExhaustedMsg]) ↔
      (if game.player1 = sid then game.guesses1 else game.guesses2).length = 10) ∧
    ((if game.player1 = sid then game.guesses1 else game.guesses2).length < 10 →
      ∃ game2, mapGet gid (submitGuess st sid gid guess).1.activeGames = some game2 ∧
        (if game.player1 = sid then game2.guesses1 else game2.guesses2).length =
          (if game.player1 = sid then game.guesses1 else game.guesses2).length + 1 ∧
        (if game.player1 = sid then game2.guesses1 else game2.guesses2).length ≤ 10) := by
  rcases hp with hp1 | ⟨hnp1, hp2⟩
  · simp only [hp1, eq_self_iff_true, if_true] at hlen ⊢
    by_cases h10 : game.guesses1.length = 10
    · have hge : game.guesses1.length ≥ 10 := by omega
      constructor
      · simp [submitGuess, hfind, hboth, hp1, hge, h10]
      · intro hcon; exfalso; omega
    · have hnot : ¬ (game.guesses1.length ≥ 10) := by omega
      constructor
      · constructor
        · intro hres
          exfalso
          simp [submitGuess, hfind, hboth, hp1, hnot] at hres
          rcases hres with ⟨h1, h2⟩
          split at h2 <;> simp at h2
        · intro h; exact absurd h h10
      · intro hlt
        refine ⟨{ game with guesses1 := game.guesses1 ++
          [{ guess := guess,
             feedback := calculateFeedback ((game.secret2).getD []) guess }] }, ?_, ?_, ?_⟩
        · simp [submitGuess, hfind, hboth, hp1, hnot, mapGet_mapSet_self]
        · simp
        · simp; omega
  · have hb1 : (game.player1 == sid) = false := by simp [hnp1]
    simp only [if_neg hnp1] at hlen ⊢
    by_cases h10 : game.guesses2.length = 10
    · have hge : game.guesses2.length ≥ 10 := by omega
      constructor
      · simp [submitGuess, hfind, hboth, hb1, hp2, hge, h10, hnp1]
      · intro hcon; exfalso; omega
    · have hnot : ¬ (game.guesses2.length ≥ 10) := by omega
      constructor
      · constructor
        · intro hres
          exfalso
          simp [submitGuess, hfind, hboth, hb1, hp2, hnot, hnp1] at hres
          rcases hres with ⟨h1, h2⟩
          split at h2 <;> simp at h2
        · intro h; exact absurd h h10
      · intro hlt
        refine ⟨{ game with guesses2 := game.guesses2 ++
          [{ guess := guess,
             feedback := calculateFeedback ((game.secret1).getD []) guess }] }, ?_, ?_, ?_⟩
        · simp [submitGuess, hfind, hboth, hb1, hp2, hnot, hnp1, mapGet_mapSet_self]
        · simp
        · simp; omega

theorem c3_attempt_budget_witness :
    submitGuess fullState "a" "g" [1, 1, 1, 1] =
      (fullState, [Notif.guessError "a" "g" attemptsExhaustedMsg]) :=
  ((c3_attempt_budget fullState "a" "g" [1, 1, 1, 1] gameFull (by decide)
      (by decide) (Or.inl (by decide)) (by decide)).1).mpr (by decide)

/-- C4: submit_guess surfaces a guess_error to the submitter exactly for the
SecretsNotReady and AttemptsExhausted failures; unknown-session and (with both
secrets committed) non-participant failures of submit_guess, and unknown-session
or non-participant failures of set_secret_code, are silent; every failure leaves
the state unchanged, and set_secret_code never emits a guess_error at all. -/
theorem c4_error_surfacing (st : ServerState) (sid gid : String)
    (guess code : List Int) :
    (mapGet gid st.activeGames = none →
      submitGuess st sid gid guess = (st, []) ∧
      setSecretCode st sid gid code = (st, [])) ∧
    (∀ game, mapGet gid st.activeGames = some game →
      (game.bothCodesSet = false →
        submitGuess st sid gid guess =
          (st, [Notif.guessError sid gid secretsNotReadyMsg])) ∧
      (game.bothCodesSet = true → game.player1 ≠ sid → game.player2 ≠ sid →
        submitGuess st sid gid guess = (st, [])) ∧
      (game.player1 ≠ sid → game.player2 ≠ sid →
        setSecretCode st sid gid code = (st, [])) ∧
      (game.bothCodesSet = true → (game.player1 = sid ∨ game.player2 = sid) →
        (if game.player1 = sid then game.guesses1 else game.guesses2).length ≥ 10 →
        submitGuess st sid gid guess =
          (st, [Notif.guessError sid gid attemptsExhaustedMsg]))) ∧
    ((∃ e, Notif.guessError sid gid e ∈ (submitGuess st sid gid guess).2) ↔
      (∃ game, mapGet gid st.activeGames = some game ∧
        (game.bothCodesSet = false ∨
          ((game.player1 = sid ∨ game.player2 = sid) ∧
            (if game.player1 = sid then game.guesses1 else game.guesses2).length ≥ 10)))) ∧
    (∀ e, Notif.guessError sid gid e ∉ (setSecretCode st sid gid code).2) := by
  rcases hfind : mapGet gid st.activeGames with _ | game
  · refine ⟨fun _ => ⟨by simp [submitGuess, hfind], by simp [setSecretCode, hfind]⟩,
      ?_, ?_, ?_⟩
    · intro game hsome
      exact Option.noConfusion hsome
    · constructor
      · rintro ⟨e, he⟩
        simp [submitGuess, hfind] at he
      · rintro ⟨game, hsome, _⟩
        exact Option.noConfusion hsome
    · intro e
      simp [setSecretCode, hfind]
  · have hB : ∀ game2, (some game : Option Game) = some game2 → game2 = game :=
      fun game2 h => (Option.some.inj h).symm
    refine ⟨?_, ?_, ?_, ?_⟩
    · intro hnone
      exact Option.noConfusion hnone
    · intro game2 hsome
      have := hB game2 hsome
      subst this
      refine ⟨?_, ?_, ?_, ?_⟩
      · intro hb
        simp [submitGuess, hfind, hb]
      · intro hb hn1 hn2
        have hb1 : (game2.player1 == sid) = false := by simp [hn1]
        have hb2 : (game2.player2 == sid) = false := by simp [hn2]
        simp [submitGuess, hfind, hb, hb1, hb2]
      · intro hn1 hn2
        have hb1 : (game2.player1 == sid) = false := by simp [hn1]
        have hb2 : (game2.player2 == sid) = false := by simp [hn2]
        simp [setSecretCode, hfind, hb1, hb2]
      · intro hb hp hge
        rcases hp with hp1 | hp2
        · simp only [hp1, eq_self_iff_true, if_true] at hge
          simp [submitGuess, hfind, hb, hp1, hge]
        · by_cases hp1 : game2.player1 = sid
          · simp only [hp1, eq_self_iff_true, if_true] at hge
            simp [submitGuess, hfind, hb, hp1, hge]
          · have hb1 : (game2.player1 == sid) = false := by simp [hp1]
            simp only [if_neg hp1] at hge
            simp [submitGuess, hfind, hb, hb1, hp2, hge, hp1]
    · by_cases hboth : game.bothCodesSet = true
      · by_cases hp1 : game.player1 = sid
        · by_cases hge : game.guesses1.length ≥ 10
          · refine iff_of_true ⟨attemptsExhaustedMsg, ?_⟩
              ⟨game, rfl, Or.inr ⟨Or.inl hp1, by simp [hp1, hge]⟩⟩
            simp [submitGuess, hfind, hboth, hp1, hge]
          · constructor
            · rintro ⟨e, he⟩
              have hnot : ¬ (game.guesses1.length ≥ 10) := hge
              simp [submitGuess, hfind, hboth, hp1, hnot] at he
              split at he <;> simp at he
            · rintro ⟨game2, hsome, hcond⟩
              have := hB game2 hsome
              subst this
              rcases hcond with hb | ⟨hp, hlen⟩
              · rw [hboth] at hb
                cases hb
              · simp only [hp1, eq_self_iff_true, if_true] at hlen
                exact absurd hlen hge
        · by_cases hp2 : game.player2 = sid
          · by_cases hge : game.guesses2.length ≥ 10
            · have hb1 : (game.player1 == sid) = false := by simp [hp1]
              refine iff_of_true ⟨attemptsExhaustedMsg, ?_⟩
                ⟨game, rfl, Or.inr ⟨Or.inr hp2, by simp [hp1, hge]⟩⟩
              simp [submitGuess, hfind, hboth, hb1, hp2, hge, hp1]
            · constructor
              · rintro ⟨e, he⟩
                have hb1 : (game.player1 == sid) = false := by simp [hp1]
                have hnot : ¬ (game.guesses2.length ≥ 10) := hge
                simp [submitGuess, hfind, hboth, hb1, hp2, hnot, hp1] at he
                split at he <;> simp at he
              · rintro ⟨game2, hsome, hcond⟩
                have := hB game2 hsome
                subst this
                rcases hcond with hb | ⟨hp, hlen⟩
                · rw [hboth] at hb
                  cases hb
                · simp only [if_neg hp1] at hlen
                  exact absurd hlen hge
          · have hb1 : (game.player1 == sid) = false := by simp [hp1]
            have hb2 : (game.player2 == sid) = false := by simp [hp2]
            constructor
            · rintro ⟨e, he⟩
              simp [submitGuess, hfind, hboth, hb1, hb2] at he
            · rintro ⟨game2, hsome, hcond⟩
              have := hB game2 hsome
              subst this
              rcases hcond with hb | ⟨hp, hlen⟩
              · rw [hboth] at hb
                cases hb
              · rcases hp with h | h
                · exact absurd h hp1
                · exact absurd h hp2
      · have hb : game.bothCodesSet = false := by
          revert hboth
          cases game.bothCodesSet <;> simp
        refine iff_of_true ⟨secretsNotReadyMsg, ?_⟩ ⟨game, rfl, Or.inl hb⟩
        simp [submitGuess, hfind, hb]
    · intro e
      simp only [setSecretCode, hfind]
      split
      · simp
      · split <;> split <;> simp

theorem c4_error_surfacing_witness :
    submitGuess emptyState "a" "g" [1] = (emptyState, []) ∧
    setSecretCode emptyState "a" "g" [1] = (emptyState, []) :=
  (c4_error_surfacing emptyState "a" "g" [1] [1]).1 rfl

/-- C5: with both secrets committed, submitting a guess equal element-wise to
the opponent's 4-element secret yields feedback of 4 exact pegs and 0 color
pegs, a guess_feedback to the submitter with isWin and gameOver true, and an
opponent_game_status to the opponent with opponentWon true (opponentLost
false). -/
theorem c5_winning_guess (st : ServerState) (sid gid : String) (game : Game)
    (sec : List Int)
    (hfind : mapGet gid st.activeGames = some game)
    (hboth : game.bothCodesSet = true)
    (h4 : sec.length = 4)
    (hcase :
      (game.player1 = sid ∧ game.secret2 = some sec ∧ game.guesses1.length < 10) ∨
      (game.player1 ≠ sid ∧ game.player2 = sid ∧ game.secret1 = some sec ∧
        game.guesses2.length < 10)) :
    (calculateFeedback sec sec).count "black" = 4 ∧
    (calculateFeedback sec sec).count "white" = 0 ∧
    (submitGuess st sid gid sec).2 =
      [Notif.guessFeedback sid gid
         { guess := sec, feedback := calculateFeedback sec sec } true true,
       Notif.opponentGuess (if game.player1 = sid then game.player2 else game.player1)
         gid { guess := sec, feedback := calculateFeedback sec sec },
       Notif.opponentGameStatus
         (if game.player1 = sid then game.player2 else game.player1)
         gid true false] := by
  have hwin : winCheck sec sec = true := by
    have := winCheck_append sec []
    simpa using this
  refine ⟨?_, ?_, ?_⟩
  · rw [calculateFeedback_self, h4]; decide
  · rw [calculateFeedback_self, h4]; decide
  · rcases hcase with ⟨hp1, hsec, hlen⟩ | ⟨hnp1, hp2, hsec, hlen⟩
    · have hnot : ¬ (game.guesses1.length ≥ 10) := by omega
      simp [submitGuess, hfind, hboth, hp1, hsec, hnot, hwin]
    · have hnot : ¬ (game.guesses2.length ≥ 10) := by omega
      have hb1 : (game.player1 == sid) = false := by
        simp [hnp1]
      simp [submitGuess, hfind, hboth, hb1, hp2, hsec, hnot, hwin, hnp1]

theorem c5_winning_guess_witness :
    (calculateFeedback [4, 3, 2, 1] [4, 3, 2, 1]).count "black" = 4 ∧
    (calculateFeedback [4, 3, 2, 1] [4, 3, 2, 1]).count "white" = 0 ∧
    (submitGuess liveState "a" "g" [4, 3, 2, 1]).2 =
      [Notif.guessFeedback "a" "g"
         { guess := [4, 3, 2, 1],
           feedback := calculateFeedback [4, 3, 2, 1] [4, 3, 2, 1] } true true,
       Notif.opponentGuess (if gameLive.player1 = "a" then gameLive.player2
           else gameLive.player1)
         "g" { guess := [4, 3, 2, 1],
               feedback := calculateFeedback [4, 3, 2, 1] [4, 3, 2, 1] },
       Notif.opponentGameStatus (if gameLive.player1 = "a" then gameLive.player2
           else gameLive.player1)
         "g" true false] :=
  c5_winning_guess liveState "a" "g" gameLive [4, 3, 2, 1] (by decide) (by decide)
    (by decide) (Or.inl (by decide))

/-- C9: the win test only ranges over the indices of the submitted guess, so a
guess that is a strict prefix of the opponent's secret — in particular the
empty guess — is accepted, appended, and reported with isWin and gameOver
true, with the opponent told opponentWon = true. -/
theorem c9_prefix_win (st : ServerState) (sid gid : String) (game : Game)
    (pre rest : List Int)
    (hfind : mapGet gid st.activeGames = some game)
    (hboth : game.bothCodesSet = true)
    (_hrest : rest ≠ [])
    (hcase :
      (game.player1 = sid ∧ game.secret2 = some (pre ++ rest) ∧
        game.guesses1.length < 10) ∨
      (game.player1 ≠ sid ∧ game.player2 = sid ∧ game.secret1 = some (pre ++ rest) ∧
        game.guesses2.length < 10)) :
    (submitGuess st sid gid pre).2 =
      [Notif.guessFeedback sid gid
         { guess := pre, feedback := calculateFeedback (pre ++ rest) pre } true true,
       Notif.opponentGuess (if game.player1 = sid then game.player2 else game.player1)
         gid { guess := pre, feedback := calculateFeedback (pre ++ rest) pre },
       Notif.opponentGameStatus
         (if game.player1 = sid then game.player2 else game.player1)
         gid true false] ∧
    (∃ game2, mapGet gid (submitGuess st sid gid pre).1.activeGames = some game2 ∧
      (if game.player1 = sid then game2.guesses1 else game2.guesses2).length =
        (if game.player1 = sid then game.guesses1 else game.guesses2).length + 1) := by
  have hwin : winCheck pre (pre ++ rest) = true := winCheck_append pre rest
  rcases hcase with ⟨hp1, hsec, hlen⟩ | ⟨hnp1, hp2, hsec, hlen⟩
  · have hnot : ¬ (game.guesses1.length ≥ 10) := by omega
    constructor
    · simp [submitGuess, hfind, hboth, hp1, hsec, hnot, hwin]
    · refine ⟨?_, ?_, ?_⟩
      · exact { game with guesses1 := game.guesses1 ++
          [{ guess := pre, feedback := calculateFeedback (pre ++ rest) pre }] }
      · simp [submitGuess, hfind, hboth, hp1, hsec, hnot, hwin, mapGet_mapSet_self]
      · simp [hp1]
  · have hnot : ¬ (game.guesses2.length ≥ 10) := by omega
    have hb1 : (game.player1 == sid) = false := by simp [hnp1]
    constructor
    · simp [submitGuess, hfind, hboth, hb1, hp2, hsec, hnot, hwin, hnp1]
    · refine ⟨?_, ?_, ?_⟩
      · exact { game with guesses2 := game.guesses2 ++
          [{ guess := pre, feedback := calculateFeedback (pre ++ rest) pre }] }
      · simp [submitGuess, hfind, hboth, hb1, hp2, hsec, hnot, hwin, hnp1,
          mapGet_mapSet_self]
      · simp [hnp1]

theorem c9_prefix_win_witness :
    (submitGuess liveState "b" "g" []).2 =
      [Notif.guessFeedback "b" "g"
         { guess := [], feedback := calculateFeedback ([] ++ [1, 2, 3, 4]) [] }
         true true,
       Notif.opponentGuess (if gameLive.player1 = "b" then gameLive.player2
           else gameLive.player1)
         "g" { guess := [], feedback := calculateFeedback ([] ++ [1, 2, 3, 4]) [] },
       Notif.opponentGameStatus (if gameLive.player1 = "b" then gameLive.player2
           else gameLive.player1)
         "g" true false] ∧
    (∃ game2, mapGet "g" (submitGuess liveState "b" "g" []).1.activeGames = some game2 ∧
      (if gameLive.player1 = "b" then game2.guesses1 else game2.guesses2).length =
        (if gameLive.player1 = "b" then gameLive.guesses1 else gameLive.guesses2).length
          + 1) :=
  c9_prefix_win liveState "b" "g" gameLive [] [1, 2, 3, 4] (by decide) (by decide)
    (by decide) (Or.inr (by decide))

/-- C10: set_secret_code by a participant always overwrites that player's slot
regardless of phase (even with both secrets committed and guesses submitted);
whenever both slots are non-null after the write it sets bothCodesSet and
re-broadcasts both_codes_set to both players; and neither set_secret_code nor
submit_guess ever resets any game's bothCodesSet from true to false. -/
theorem c10_secret_overwrite (st : ServerState) (sid gid : String)
    (code guess : List Int) :
    (∀ game, mapGet gid st.activeGames = some game →
      (game.player1 = sid ∨ (game.player1 ≠ sid ∧ game.player2 = sid)) →
      ∃ game2, mapGet gid (setSecretCode st sid gid code).1.activeGames = some game2 ∧
        (if game.player1 = sid then
          game2.secret1 = some code ∧ game2.secret2 = game.secret2
         else
          game2.secret2 = some code ∧ game2.secret1 = game.secret1) ∧
        ((if game.player1 = sid then game.secret2 else game.secret1).isSome = true →
          game2.bothCodesSet = true ∧
          (setSecretCode st sid gid code).2 =
            [Notif.bothCodesSetNotice game.player1 gid,
             Notif.bothCodesSetNotice game.player2 gid])) ∧
    (∀ gid2 g g2, mapGet gid2 st.activeGames = some g → g.bothCodesSet = true →
      mapGet gid2 (setSecretCode st sid gid code).1.activeGames = some g2 →
      g2.bothCodesSet = true) ∧
    (∀ gid2 g g2, mapGet gid2 st.activeGames = some g → g.bothCodesSet = true →
      mapGet gid2 (submitGuess st sid gid guess).1.activeGames = some g2 →
      g2.bothCodesSet = true) := by
  refine ⟨?_, ?_, ?_⟩
  · intro game hfind hp
    rcases hp with hp1 | ⟨hnp1, hp2⟩
    · rcases hs2 : game.secret2.isSome with _ | _
      · refine ⟨{ game with secret1 := some code }, ?_, ?_, ?_⟩
        · simp [setSecretCode, hfind, hp1, hs2, mapGet_mapSet_self]
        · simp [hp1]
        · intro hcon
          rw [if_pos hp1] at hcon
          rw [hs2] at hcon
          cases hcon
      · refine ⟨{ game with secret1 := some code, bothCodesSet := true }, ?_, ?_, ?_⟩
        · simp [setSecretCode, hfind, hp1, hs2, mapGet_mapSet_self]
        · simp [hp1]
        · intro _
          constructor
          · rfl
          · simp [setSecretCode, hfind, hp1, hs2]
    · have hb1 : (game.player1 == sid) = false := by simp [hnp1]
      rcases hs1 : game.secret1.isSome with _ | _
      · refine ⟨{ game with secret2 := some code }, ?_, ?_, ?_⟩
        · simp [setSecretCode, hfind, hb1, hp2, hs1, hnp1, mapGet_mapSet_self]
        · simp [hnp1]
        · intro hcon
          rw [if_neg hnp1] at hcon
          rw [hs1] at hcon
          cases hcon
      · refine ⟨{ game with secret2 := some code, bothCodesSet := true }, ?_, ?_, ?_⟩
        · simp [setSecretCode, hfind, hb1, hp2, hs1, hnp1, mapGet_mapSet_self]
        · simp [hnp1]
        · intro _
          constructor
          · rfl
          · simp [setSecretCode, hfind, hb1, hp2, hs1, hnp1]
  · intro gid2 g g2 hg hgb hg2
    rcases hfind : mapGet gid st.activeGames with _ | game
    · simp only [setSecretCode, hfind] at hg2
      rw [hg] at hg2
      exact (Option.some.inj hg2) ▸ hgb
    · have h4 : mapGet gid2 st.activeGames = some g2 → g2.bothCodesSet = true := by
        intro h
        rw [hg] at h
        exact (Option.some.inj h) ▸ hgb
      rcases hb1 : (game.player1 == sid) with _ | _
      · rcases hb2 : (game.player2 == sid) with _ | _
        · simp [setSecretCode, hfind, hb1, hb2] at hg2
          exact h4 hg2
        · rcases hs1 : game.secret1.isSome with _ | _
          · simp [setSecretCode, hfind, hb1, hb2, hs1] at hg2
            by_cases h2 : gid2 = gid
            · subst h2
              rw [mapGet_mapSet_self] at hg2
              cases Option.some.inj hg2
              have h5 : game = g := by
                rw [hfind] at hg
                exact Option.some.inj hg
              simp [h5, hgb]
            · rw [mapGet_mapSet_ne _ h2] at hg2
              exact h4 hg2
          · simp [setSecretCode, hfind, hb1, hb2, hs1] at hg2
            by_cases h2 : gid2 = gid
            · subst h2
              rw [mapGet_mapSet_self] at hg2
              cases Option.some.inj hg2
              simp
            · rw [mapGet_mapSet_ne _ h2] at hg2
              exact h4 hg2
      · rcases hs2 : game.secret2.isSome with _ | _
        · simp [setSecretCode, hfind, hb1, hs2] at hg2
          by_cases h2 : gid2 = gid
          · subst h2
            rw [mapGet_mapSet_self] at hg2
            cases Option.some.inj hg2
            have h5 : game = g := by
              rw [hfind] at hg
              exact Option.some.inj hg
            simp [h5, hgb]
          · rw [mapGet_mapSet_ne _ h2] at hg2
            exact h4 hg2
        · simp [setSecretCode, hfind, hb1, hs2] at hg2
          by_cases h2 : gid2 = gid
          · subst h2
            rw [mapGet_mapSet_self] at hg2
            cases Option.some.inj hg2
            simp
          · rw [mapGet_mapSet_ne _ h2] at hg2
            exact h4 hg2
  · intro gid2 g g2 hg hgb hg2
    rcases hfind : mapGet gid st.activeGames with _ | game
    · simp only [submitGuess, hfind] at hg2
      rw [hg] at hg2
      exact (Option.some.inj hg2) ▸ hgb
    · have h4 : mapGet gid2 st.activeGames = some g2 → g2.bothCodesSet = true := by
        intro h
        rw [hg] at h
        exact (Option.some.inj h) ▸ hgb
      rcases hbb : game.bothCodesSet with _ | _
      · simp [submitGuess, hfind, hbb] at hg2
        exact h4 hg2
      · rcases hb1 : (game.player1 == sid) with _ | _
        · rcases hb2 : (game.player2 == sid) with _ | _
          · simp [submitGuess, hfind, hbb, hb1, hb2] at hg2
            exact h4 hg2
          · by_cases hge : game.guesses2.length ≥ 10
            · simp [submitGuess, hfind, hbb, hb1, hb2, hge] at hg2
              exact h4 hg2
            · simp [submitGuess, hfind, hbb, hb1, hb2, hge] at hg2
              by_cases h2 : gid2 = gid
              · subst h2
                rw [mapGet_mapSet_self] at hg2
                cases Option.some.inj hg2
                simp [hbb]
              · rw [mapGet_mapSet_ne _ h2] at hg2
                exact h4 hg2
        · by_cases hge : game.guesses1.length ≥ 10
          · simp [submitGuess, hfind, hbb, hb1, hge] at hg2
            exact h4 hg2
          · simp [submitGuess, hfind, hbb, hb1, hge] at hg2
            by_cases h2 : gid2 = gid
            · subst h2
              rw [mapGet_mapSet_self] at hg2
              cases Option.some.inj hg2
              simp [hbb]
            · rw [mapGet_mapSet_ne _ h2] at hg2
              exact h4 hg2

theorem c10_secret_overwrite_witness :
    (setSecretCode startedState "a" "g" [9, 9, 9, 9]).2 =
      [Notif.bothCodesSetNotice "a" "g", Notif.bothCodesSetNotice "b" "g"] := by
  have h := (c10_secret_overwrite startedState "a" "g" [9, 9, 9, 9] [0]).1
    gameStarted (by decide) (Or.inl (by decide))
  obtain ⟨game2, hmap, hslot, himp⟩ := h
  have h2 := himp (by decide)
  rw [h2.2]
  decide

end Backend
